import Mathlib

/-!
Verification development for the Beezly price-tag OCR pipeline
(`apps/ai/price-project/main.py`, `apps/ai/price-project/modal_app.py`,
`apps/ai/jupyter/modal_app.py`).

The Python code is shallowly embedded: PIL images become a structure of
width, height, mode and a total pixel function; the external detector and
OCR models become oracle parameters; Python exceptions become `Except`
values; Python dicts become association lists.  Machine floats appearing
in the source (confidence scores, resize scale factors) are modelled with
exact rationals / natural floor division, which agrees with the float code
up to floating rounding.
-/

/-- An RGB colour value, as used for PIL background colours and pixels. -/
structure Color where
  r : Nat
  g : Nat
  b : Nat
deriving DecidableEq, Repr

/-- Shallow model of a PIL image: dimensions, mode string and a total
pixel map.  Pixel values outside the `width × height` rectangle are
irrelevant junk carried by the total function. -/
structure Img where
  width : Nat
  height : Nat
  mode : String
  pix : Nat → Nat → Color

/-- `PIL.Image.new(mode, (w, h), background)`: a constant canvas. -/
def Image.new (mode : String) (w h : Nat) (bg : Color) : Img :=
  ⟨w, h, mode, fun _ _ => bg⟩

/-- `base.paste(src, (ox, oy))`: overwrite the rectangle of `src` at
offset `(ox, oy)`; everywhere else the base pixel shows through.  (In the
embedded code the pasted region always lies inside the base canvas.) -/
def Img.paste (base : Img) (src : Img) (ox oy : Nat) : Img :=
  { base with pix := fun x y =>
      if ox ≤ x ∧ x < ox + src.width ∧ oy ≤ y ∧ y < oy + src.height then
        src.pix (x - ox) (y - oy)
      else base.pix x y }

/-- `img.convert(mode)`: only the mode tag is tracked; the per-pixel
colour-space conversion is external numerics, identity on our pixels. -/
def Img.convert (img : Img) (m : String) : Img :=
  { img with mode := m }

/-- `img.crop((x1, y1, x2, y2))` with in-bounds `Nat` coordinates, as
used after clamping in `price-project`. -/
def Img.crop (img : Img) (x1 y1 x2 y2 : Nat) : Img :=
  ⟨x2 - x1, y2 - y1, img.mode, fun x y => img.pix (x1 + x) (y1 + y)⟩

/-- `img.crop(xyxy)` with raw (possibly out-of-bounds) integer
coordinates, as used in `jupyter/modal_app.py`.  Pillow raises when the
right/bottom coordinate is below the left/top one, and fills areas
outside the source image with black. -/
def Img.cropI (img : Img) (x1 y1 x2 y2 : Int) : Except String Img :=
  if x2 < x1 ∨ y2 < y1 then
    .error "Coordinate out of order in crop box"
  else
    .ok ⟨(x2 - x1).toNat, (y2 - y1).toNat, img.mode, fun x y =>
      let gx := x1 + x
      let gy := y1 + y
      if 0 ≤ gx ∧ gx < img.width ∧ 0 ≤ gy ∧ gy < img.height then
        img.pix gx.toNat gy.toNat
      else ⟨0, 0, 0⟩⟩

/-- `img.resize((w, h), LANCZOS)`: the new dimensions are exact; the
resampled pixel values are external numerics, modelled by coordinate
scaling. -/
def Img.resize (img : Img) (w h : Nat) : Img :=
  ⟨w, h, img.mode, fun x y => img.pix (x * img.width / w) (y * img.height / h)⟩

/-- `PriceTagReader._pad_to_square` from `price-project/main.py` (lines
115-134) and the textually identical method in
`price-project/modal_app.py` (lines 209-219): if the image is already
square return it unchanged, otherwise build a `max(width, height)` square
canvas of the background colour and paste the image centred, with integer
floor offsets. -/
def pad_to_square (pil_img : Img) (background_color : Color) : Img :=
  if pil_img.width = pil_img.height then pil_img
  else
    let size := max pil_img.width pil_img.height
    (Image.new pil_img.mode size size background_color).paste pil_img
      ((size - pil_img.width) / 2) ((size - pil_img.height) / 2)

/-- `PriceTagReader._pad_to_square` from `jupyter/modal_app.py` (lines
138-151): three-way branch with a zero offset on the longer axis. -/
def pad_to_square_jupyter (pil_img : Img) (background_color : Color) : Img :=
  if pil_img.width = pil_img.height then pil_img
  else if pil_img.height < pil_img.width then
    (Image.new pil_img.mode pil_img.width pil_img.width background_color).paste
      pil_img 0 ((pil_img.width - pil_img.height) / 2)
  else
    (Image.new pil_img.mode pil_img.height pil_img.height background_color).paste
      pil_img ((pil_img.height - pil_img.width) / 2) 0

/-- The resize-if-too-large step opening `_extract_text` in
`price-project/main.py` (lines 147-152): if the larger dimension exceeds
`maxSize`, scale both dimensions by `maxSize / max(width, height)`
(Python `int(dim * scale)` truncates; with exact arithmetic that is floor
division). -/
def constrain_max_dim (image : Img) (max_size : Nat) : Img :=
  if max_size < max image.width image.height then
    image.resize (image.width * max_size / max image.width image.height)
      (image.height * max_size / max image.width image.height)
  else image

/-- Exact-rational model of PIL `Image.thumbnail`'s `round_aspect` in the
branch that recomputes the width: the candidate is `my * w / h`; floor and
ceiling are compared by `|w/h - n/my|` (floor wins ties), then clamped to
at least 1. -/
def round_aspect_x (w h my : Nat) : Nat :=
  let fl := my * w / h
  let ce := (my * w + h - 1) / h
  max 1 (if w * my - fl * h ≤ ce * h - w * my then fl else ce)

/-- Exact-rational model of PIL `Image.thumbnail`'s `round_aspect` in the
branch that recomputes the height: the candidate is `mx * h / w`; floor
and ceiling are compared by `|w/h - mx/n|` (cross-multiplied), then
clamped to at least 1. -/
def round_aspect_y (w h mx : Nat) : Nat :=
  let fl := mx * h / w
  let ce := (mx * h + w - 1) / w
  max 1 (if (mx * h - w * fl) * ce ≤ (w * ce - mx * h) * fl then fl else ce)

/-- `img.thumbnail((mx, my), LANCZOS)` as called in
`jupyter/modal_app.py` line 233: unchanged when the image already fits in
the bounding box; otherwise an aspect-preserving shrink (PIL raises
`ZeroDivisionError` computing the aspect of a zero-height image). -/
def Img.thumbnail (img : Img) (mx my : Nat) : Except String Img :=
  if img.width ≤ mx ∧ img.height ≤ my then .ok img
  else if img.height = 0 then .error "division by zero"
  else if img.width * my ≤ mx * img.height then
    .ok (img.resize (round_aspect_x img.width img.height my) my)
  else
    .ok (img.resize mx (round_aspect_y img.width img.height mx))

/-- One YOLO detection as consumed by the per-box loops, after
`box.xyxy[0].cpu().numpy().astype(int)`: the raw integer box, the
confidence score (a machine float, modelled as an exact rational) and the
integer class id. -/
structure Det where
  x1 : Int
  y1 : Int
  x2 : Int
  y2 : Int
  conf : ℚ
  cls : Nat
deriving DecidableEq, Repr

/-- One entry of the `price_tags` output list.  The Python dicts either
carry an `"error"` key (jupyter failure records) or omit it, which the
`Option` models; `cls` stands for the `"class"` key. -/
structure PriceTagRecord where
  bbox : List Int
  text : String
  confidence : ℚ
  cls : String
  error : Option String
deriving DecidableEq, Repr

/-- The `{"count": ..., "price_tags": [...]}` result dict. -/
structure ExtractionResult where
  count : Nat
  price_tags : List PriceTagRecord
deriving DecidableEq, Repr

/-- Python `round(confidence, 3)` (exact-rational model of the float
rounding). -/
def round3 (c : ℚ) : ℚ :=
  (round (c * 1000) : ℚ) / 1000

/-- Python `str.strip()`: drop leading and trailing whitespace. -/
def pstrip (s : String) : String :=
  String.mk
    (((s.toList.dropWhile Char.isWhitespace).reverse.dropWhile
      Char.isWhitespace).reverse)

/-- `PriceTagReader._extract_text` from `price-project/main.py` (lines
136-201): constrain the image to a 1024 maximum dimension, invoke the OCR
model (the oracle `ocr`, covering the processor/generate/decode chain)
and strip the output; the enclosing `try/except` converts ANY failure to
the empty string. -/
def extract_text (ocr : Img → Except String String) (image : Img) : String :=
  let image := constrain_max_dim image 1024
  match ocr image with
  | .ok s => pstrip s
  | .error _ => ""

/-- `NanonetsOCR.extract_text` from `price-project/modal_app.py` (lines
136-194): same constrain-then-OCR-then-strip chain, but with no exception
handler — failures propagate to the caller. -/
def nanonets_extract_text (ocr : Img → Except String String) (image : Img) :
    Except String String :=
  let image := constrain_max_dim image 1024
  (ocr image).map pstrip

/-- The clamp of a raw box to the image bounds, as computed inline in
both `price-project` per-box loops: `max(0, x1)`, `max(0, y1)`,
`min(image.width, x2)`, `min(image.height, y2)`. -/
def clampBox (image : Img) (d : Det) : Int × Int × Int × Int :=
  (max 0 d.x1, max 0 d.y1, min (image.width : Int) d.x2,
    min (image.height : Int) d.y2)

/-- The body of the per-detection loop of
`PriceTagReader.detect_and_extract` in `price-project/main.py` (lines
236-275): clamp, skip degenerate boxes (`continue`), crop to the clamped
box, pad to square, look up the class name with a `"price_tag"` default,
extract text (`_extract_text` absorbs OCR failures into `""`), and append
a record carrying the RAW `xyxy` box and no error key.  The surrounding
`try/except ... continue` absorbs failures of the external calls; the
only fallible call in the embedding (OCR) is already absorbed inside
`_extract_text`. -/
def process_det_main (names : Nat → Option String)
    (ocr : Img → Except String String) (image : Img) (d : Det) :
    Option PriceTagRecord :=
  let (x1, y1, x2, y2) := clampBox image d
  if x2 ≤ x1 ∨ y2 ≤ y1 then none
  else
    let cropped_img := image.crop x1.toNat y1.toNat x2.toNat y2.toNat
    let padded_img := pad_to_square cropped_img ⟨255, 255, 255⟩
    let class_name := (names d.cls).getD "price_tag"
    let text := extract_text ocr padded_img
    some ⟨[d.x1, d.y1, d.x2, d.y2], text, round3 d.conf, class_name, none⟩

/-- `PriceTagReader.detect_and_extract` from `price-project/main.py`
(lines 203-283), for an already-decoded PIL image: ensure RGB mode, run
the detector (its output list `dets` is an input here), run the per-box
loop, and assemble `{"count": len(price_tags), "price_tags": ...}`. -/
def detect_and_extract_main (names : Nat → Option String)
    (ocr : Img → Except String String) (image : Img) (dets : List Det) :
    ExtractionResult :=
  let image := if image.mode = "RGB" then image else image.convert "RGB"
  let price_tags := dets.filterMap (process_det_main names ocr image)
  ⟨price_tags.length, price_tags⟩

/-- The body of the per-detection loop of
`PriceTagReader._detect_and_extract` in `price-project/modal_app.py`
(lines 287-326).  Identical to the `main.py` loop except that the OCR
call (`NanonetsOCR.extract_text`) is NOT internally guarded: its failure
raises into the per-box `try/except`, which logs and continues, so the
detection contributes no record at all. -/
def process_det_modal (names : Nat → Option String)
    (ocr : Img → Except String String) (image : Img) (d : Det) :
    Option PriceTagRecord :=
  let (x1, y1, x2, y2) := clampBox image d
  if x2 ≤ x1 ∨ y2 ≤ y1 then none
  else
    let cropped_img := image.crop x1.toNat y1.toNat x2.toNat y2.toNat
    let padded_img := pad_to_square cropped_img ⟨255, 255, 255⟩
    let class_name := (names d.cls).getD "price_tag"
    match nanonets_extract_text ocr padded_img with
    | .ok text =>
      some ⟨[d.x1, d.y1, d.x2, d.y2], text, round3 d.conf, class_name, none⟩
    | .error _ => none

/-- `PriceTagReader._detect_and_extract` from
`price-project/modal_app.py` (lines 268-334), for an already-decoded PIL
image (the callers convert to RGB before the call; this method does not
re-convert a PIL input). -/
def detect_and_extract_modal (names : Nat → Option String)
    (ocr : Img → Except String String) (image : Img) (dets : List Det) :
    ExtractionResult :=
  let price_tags := dets.filterMap (process_det_modal names ocr image)
  ⟨price_tags.length, price_tags⟩

/-- The body of the per-detection loop of
`PriceTagReader._detect_and_extract` in `jupyter/modal_app.py` (lines
220-252): crop the RAW box (no clamping, no degeneracy skip), look the
class name up by plain dict indexing (`KeyError` on a missing id), pad to
square, thumbnail to 1024, then extract text; only the OCR call is inside
a `try/except`, which on failure appends a record with empty text and an
`"error"` key instead of aborting. -/
def process_det_jup (names : Nat → Option String)
    (ocr : Img → Except String String) (image : Img) (d : Det) :
    Except String PriceTagRecord :=
  match image.cropI d.x1 d.y1 d.x2 d.y2 with
  | .error e => .error e
  | .ok cropped_img =>
    match names d.cls with
    | none => .error "KeyError"
    | some class_name =>
      match (pad_to_square_jupyter cropped_img ⟨255, 255, 255⟩).thumbnail 1024 1024 with
      | .error e => .error e
      | .ok padded_img =>
        match (ocr padded_img).map pstrip with
        | .ok text =>
          .ok ⟨[d.x1, d.y1, d.x2, d.y2], text, d.conf, class_name, none⟩
        | .error e =>
          .ok ⟨[d.x1, d.y1, d.x2, d.y2], "", d.conf, class_name, some e⟩

/-- The accumulation of `price_tags` across the jupyter per-box loop:
the first failing box aborts the whole traversal (there is no per-box
catch-all in this implementation). -/
def jup_tags (names : Nat → Option String) (ocr : Img → Except String String)
    (image : Img) : List Det → Except String (List PriceTagRecord)
  | [] => .ok []
  | d :: ds =>
    match process_det_jup names ocr image d with
    | .error e => .error e
    | .ok r =>
      match jup_tags names ocr image ds with
      | .error e => .error e
      | .ok rs => .ok (r :: rs)

/-- `PriceTagReader._detect_and_extract` from `jupyter/modal_app.py`
(lines 206-254), for a PIL image input. -/
def detect_and_extract_jup (names : Nat → Option String)
    (ocr : Img → Except String String) (image : Img) (dets : List Det) :
    Except String ExtractionResult :=
  match jup_tags names ocr image dets with
  | .error e => .error e
  | .ok price_tags => .ok ⟨price_tags.length, price_tags⟩

/-- One value of the `job_statuses` dict: a `"status"` string and the
optional `"result"` / `"error"` keys (absent keys are `none`). -/
structure JobEntry where
  status : String
  result : Option ExtractionResult
  error : Option String
deriving DecidableEq, Repr

/-- The `job_statuses` shared dict, keyed by job id. -/
abbrev JobStore := List (String × JobEntry)

/-- Python dict assignment `job_statuses[job_id] = entry`: overwrite the
existing binding in place, or append a new one. -/
def storeSet : JobStore → String → JobEntry → JobStore
  | [], k, v => [(k, v)]
  | (k', v') :: s, k, v =>
    if k' = k then (k, v) :: s else (k', v') :: storeSet s k v

/-- Python dict lookup `job_statuses[job_id]` / membership test. -/
def storeGet : JobStore → String → Option JobEntry
  | [], _ => none
  | (k', v') :: s, k => if k' = k then some v' else storeGet s k

/-- The `{"status": "submitted", "result": None}` entry written on job
submission. -/
def submittedEntry : JobEntry := ⟨"submitted", none, none⟩

/-- The fallible part of `process_url_job`'s body
(`price-project/modal_app.py` lines 380-386): fetch the URL
(`requests.get` + `raise_for_status`, the oracle `fetch`), decode the
bytes (`Image.open(...).convert("RGB")`, the oracle `decode`), run the
detector (the oracle `detect`, raised inside `_detect_and_extract`), then
the per-box loop.  Any stage's failure is the `Except.error` case. -/
def run_url_pipeline (fetch : Except String (List Nat))
    (decode : List Nat → Except String Img)
    (detect : Img → Except String (List Det))
    (names : Nat → Option String) (ocr : Img → Except String String) :
    Except String ExtractionResult :=
  match fetch with
  | .error e => .error e
  | .ok content =>
    match decode content with
    | .error e => .error e
    | .ok image =>
      match detect image with
      | .error e => .error e
      | .ok dets => .ok (detect_and_extract_modal names ocr image dets)

/-- `process_url_job` from `price-project/modal_app.py` (lines 377-390):
the whole body sits in a `try/except Exception` — on success write the
`completed` entry with the result, on any failure write the `failed`
entry with the error message. -/
def process_url_job (job_statuses : JobStore) (job_id : String)
    (fetch : Except String (List Nat))
    (decode : List Nat → Except String Img)
    (detect : Img → Except String (List Det))
    (names : Nat → Option String) (ocr : Img → Except String String) :
    JobStore :=
  match run_url_pipeline fetch decode detect names ocr with
  | .ok result => storeSet job_statuses job_id ⟨"completed", some result, none⟩
  | .error e => storeSet job_statuses job_id ⟨"failed", none, some e⟩

/-- The fallible part of `process_file_job`'s body
(`price-project/modal_app.py` lines 395-399): like the URL job but the
bytes are given directly, so there is no fetch stage. -/
def run_file_pipeline (file_data : List Nat)
    (decode : List Nat → Except String Img)
    (detect : Img → Except String (List Det))
    (names : Nat → Option String) (ocr : Img → Except String String) :
    Except String ExtractionResult :=
  match decode file_data with
  | .error e => .error e
  | .ok image =>
    match detect image with
    | .error e => .error e
    | .ok dets => .ok (detect_and_extract_modal names ocr image dets)

/-- `process_file_job` from `price-project/modal_app.py` (lines 392-403):
same catch-all structure as `process_url_job`. -/
def process_file_job (job_statuses : JobStore) (job_id : String)
    (file_data : List Nat)
    (decode : List Nat → Except String Img)
    (detect : Img → Except String (List Det))
    (names : Nat → Option String) (ocr : Img → Except String String) :
    JobStore :=
  match run_file_pipeline file_data decode detect names ocr with
  | .ok result => storeSet job_statuses job_id ⟨"completed", some result, none⟩
  | .error e => storeSet job_statuses job_id ⟨"failed", none, some e⟩

/-- `submit_job_url` as written identically in
`price-project/modal_app.py` (lines 438-449) and `jupyter/modal_app.py`
(lines 303-313): reject a request without a URL (HTTP 400, the `.error`
case), otherwise assign
`job_statuses[job_id] = {"status": "submitted", "result": None}`
unconditionally (plain dict assignment — no existence check) and return
the job id.  The `uuid`-generated id is an input of the model; the
`spawn` of the worker is the async boundary, outside the store update. -/
def submit_job_url (job_statuses : JobStore) (job_id : String)
    (url : Option String) : Except String (JobStore × String) :=
  match url with
  | none => .error "URL is required"
  | some _ =>
    .ok (storeSet job_statuses job_id submittedEntry, job_id)

/-- A 3×5 constant test image. -/
def imgA : Img := ⟨3, 5, "RGB", fun _ _ => ⟨1, 2, 3⟩⟩

/-- A 20×20 constant test image. -/
def imgB : Img := ⟨20, 20, "RGB", fun _ _ => ⟨7, 7, 7⟩⟩

/-- A 2048×1024 constant test image, larger than the 1024 OCR bound. -/
def imgC : Img := ⟨2048, 1024, "RGB", fun _ _ => ⟨0, 0, 0⟩⟩

/-- A class-name table mapping every id to `"price_tag"`. -/
def names0 : Nat → Option String := fun _ => some "price_tag"

/-- An OCR oracle that always succeeds with `"PRICE"`. -/
def ocrOk : Img → Except String String := fun _ => .ok "PRICE"

/-- An OCR oracle that always fails. -/
def ocrFail : Img → Except String String := fun _ => .error "OCR boom"

/-- A detection whose raw box sticks out of `imgB` at the top-left. -/
def dRawNeg : Det := ⟨-5, -5, 10, 10, 1, 0⟩

/-- A detection with a zero-width box, degenerate after clamping. -/
def dDeg : Det := ⟨0, 0, 0, 5, 1, 0⟩

/-- A well-formed detection lying inside `imgB`. -/
def dGood : Det := ⟨0, 0, 10, 10, 1, 0⟩

/-- A store entry for an already-completed job with an empty result. -/
def completedEntry0 : JobEntry := ⟨"completed", some ⟨0, []⟩, none⟩

/-- The concrete crop of `imgB` to `dGood`, extracted from `cropI`. -/
def ciW : Img := (imgB.cropI 0 0 10 10).toOption.getD imgB

/-- The concrete processed (padded and thumbnailed) crop for `dGood`. -/
def tiW : Img :=
  ((pad_to_square_jupyter ciW ⟨255, 255, 255⟩).thumbnail 1024 1024).toOption.getD
    imgB

/-- `pad_to_square` is the identity on an already-square image. -/
theorem pad_of_square (img : Img) (bg : Color) (h : img.width = img.height) :
    pad_to_square img bg = img := by
  simp [pad_to_square, h]

/-- The output of `pad_to_square` is always square. -/
theorem pad_square (img : Img) (bg : Color) :
    (pad_to_square img bg).width = (pad_to_square img bg).height := by
  by_cases h : img.width = img.height <;>
    simp [pad_to_square, h, Img.paste, Image.new]

/-- `_pad_to_square` (jupyter variant) is the identity on a square image. -/
theorem pad_jup_of_square (img : Img) (bg : Color)
    (h : img.width = img.height) : pad_to_square_jupyter img bg = img := by
  simp [pad_to_square_jupyter, h]

/-- The output of the jupyter `_pad_to_square` is always square. -/
theorem pad_jup_square (img : Img) (bg : Color) :
    (pad_to_square_jupyter img bg).width =
      (pad_to_square_jupyter img bg).height := by
  by_cases h : img.width = img.height
  · simp [pad_to_square_jupyter, h]
  · by_cases h2 : img.height < img.width <;>
      simp [pad_to_square_jupyter, h, h2, Img.paste, Image.new]

/-- C6: `_pad_to_square` returns its input unchanged when the image is
already square; otherwise it returns an image of side
`max(width, height)` whose pixels are the background colour outside the
centred paste rectangle at offsets `(size - width) / 2` and
`(size - height) / 2` (integer floor) and the original pixels inside it.
Determinism in the input is inherent: the embedding is a pure function. -/
theorem pad_to_square_spec (img : Img) (bg : Color) :
    (img.width = img.height → pad_to_square img bg = img) ∧
    (img.width ≠ img.height →
      (pad_to_square img bg).width = max img.width img.height ∧
      (pad_to_square img bg).height = max img.width img.height ∧
      ∀ x y, (pad_to_square img bg).pix x y =
        if (max img.width img.height - img.width) / 2 ≤ x ∧
            x < (max img.width img.height - img.width) / 2 + img.width ∧
            (max img.width img.height - img.height) / 2 ≤ y ∧
            y < (max img.width img.height - img.height) / 2 + img.height then
          img.pix (x - (max img.width img.height - img.width) / 2)
            (y - (max img.width img.height - img.height) / 2)
        else bg) := by
  constructor
  · exact pad_of_square img bg
  · intro h
    refine ⟨by simp [pad_to_square, h, Img.paste, Image.new],
      by simp [pad_to_square, h, Img.paste, Image.new], fun x y => ?_⟩
    simp [pad_to_square, h, Img.paste, Image.new]

/-- Witness for C6 at the non-square 3×5 image `imgA`: a 5×5 canvas, a
background pixel just left of the paste rectangle, an image pixel inside
it. -/
theorem pad_to_square_spec_witness :
    imgA.width ≠ imgA.height ∧
    (pad_to_square imgA ⟨9, 9, 9⟩).width = 5 ∧
    (pad_to_square imgA ⟨9, 9, 9⟩).height = 5 ∧
    (pad_to_square imgA ⟨9, 9, 9⟩).pix 0 0 = ⟨9, 9, 9⟩ ∧
    (pad_to_square imgA ⟨9, 9, 9⟩).pix 1 0 = ⟨1, 2, 3⟩ := by
  have h := (pad_to_square_spec imgA ⟨9, 9, 9⟩).2 (by decide)
  refine ⟨by decide, h.1.trans (by decide), h.2.1.trans (by decide),
    (h.2.2 0 0).trans (by decide), (h.2.2 1 0).trans (by decide)⟩

/-- C8: both `_pad_to_square` implementations are idempotent — the first
application yields a square image, and on square images both return
their input unchanged. -/
theorem pad_to_square_idempotent (img : Img) (bg : Color) :
    pad_to_square (pad_to_square img bg) bg = pad_to_square img bg ∧
    pad_to_square_jupyter (pad_to_square_jupyter img bg) bg =
      pad_to_square_jupyter img bg :=
  ⟨pad_of_square _ bg (pad_square img bg),
    pad_jup_of_square _ bg (pad_jup_square img bg)⟩

/-- C10: the generic `_pad_to_square` (price-project, single max-side
canvas with floor offsets on both axes) and the three-way branching
version (jupyter) agree on every image and background colour. -/
theorem pad_to_square_impls_agree (img : Img) (bg : Color) :
    pad_to_square_jupyter img bg = pad_to_square img bg := by
  by_cases h : img.width = img.height
  · simp [pad_to_square, pad_to_square_jupyter, h]
  · by_cases h2 : img.height < img.width
    · have hmax : max img.width img.height = img.width := max_eq_left h2.le
      simp [pad_to_square, pad_to_square_jupyter, h, h2, hmax, Nat.sub_self]
    · have hmax : max img.width img.height = img.height :=
        max_eq_right (le_of_not_lt h2)
      simp [pad_to_square, pad_to_square_jupyter, h, h2, hmax, Nat.sub_self]

/-- Floor rescaling by a factor `k / m ≤ 1` never increases a dimension. -/
theorem shrink_le (w k m : Nat) (hk : k ≤ m) (hm : 0 < m) :
    w * k / m ≤ w := by
  calc w * k / m ≤ w * m / m := Nat.div_le_div_right (Nat.mul_le_mul_left w hk)
  _ = w := Nat.mul_div_cancel w hm

/-- Rescaling both dimensions by the floor of a common factor `k / m`
(with `w, h ≤ m`, `0 < m`) perturbs the cross-ratio `width * h = height * w`
by strictly less than `m`. -/
theorem aspect_bound (w h k m : Nat) (hm : 0 < m) (hw : w ≤ m) (hh : h ≤ m) :
    ((w * k / m : Nat) * h - (h * k / m : Nat) * w : ℤ).natAbs < m := by
  have e1 : m * (w * k / m) + w * k % m = w * k := Nat.div_add_mod (w * k) m
  have e2 : m * (h * k / m) + h * k % m = h * k := Nat.div_add_mod (h * k) m
  have hr1 : w * k % m < m := Nat.mod_lt _ hm
  have hr2 : h * k % m < m := Nat.mod_lt _ hm
  have e1' : (m : ℤ) * (w * k / m : Nat) + (w * k % m : Nat) = (w : ℤ) * k := by
    exact_mod_cast e1
  have e2' : (m : ℤ) * (h * k / m : Nat) + (h * k % m : Nat) = (h : ℤ) * k := by
    exact_mod_cast e2
  have hr1' : ((w * k % m : Nat) : ℤ) < m := by exact_mod_cast hr1
  have hr2' : ((h * k % m : Nat) : ℤ) < m := by exact_mod_cast hr2
  have hw' : (w : ℤ) ≤ m := by exact_mod_cast hw
  have hh' : (h : ℤ) ≤ m := by exact_mod_cast hh
  have hm' : (0 : ℤ) < m := by exact_mod_cast hm
  have hwnn : (0 : ℤ) ≤ w := Int.ofNat_nonneg w
  have hhnn : (0 : ℤ) ≤ h := Int.ofNat_nonneg h
  have hr1nn : (0 : ℤ) ≤ ((w * k % m : Nat) : ℤ) := Int.ofNat_nonneg _
  have hr2nn : (0 : ℤ) ≤ ((h * k % m : Nat) : ℤ) := Int.ofNat_nonneg _
  have key : (m : ℤ) * ((w * k / m : Nat) * h - (h * k / m : Nat) * w) =
      ((h * k % m : Nat) : ℤ) * w - ((w * k % m : Nat) : ℤ) * h := by
    linear_combination (h : ℤ) * e1' - (w : ℤ) * e2'
  have hb1 : ((h * k % m : Nat) : ℤ) * w < (m : ℤ) * m := by
    calc ((h * k % m : Nat) : ℤ) * w ≤ ((h * k % m : Nat) : ℤ) * m :=
          mul_le_mul_of_nonneg_left hw' hr2nn
    _ < (m : ℤ) * m := mul_lt_mul_of_pos_right hr2' hm'
  have hb2 : ((w * k % m : Nat) : ℤ) * h < (m : ℤ) * m := by
    calc ((w * k % m : Nat) : ℤ) * h ≤ ((w * k % m : Nat) : ℤ) * m :=
          mul_le_mul_of_nonneg_left hh' hr1nn
    _ < (m : ℤ) * m := mul_lt_mul_of_pos_right hr1' hm'
  have habs : |((h * k % m : Nat) : ℤ) * w - ((w * k % m : Nat) : ℤ) * h| <
      (m : ℤ) * m := by
    rw [abs_lt]
    constructor
    · nlinarith [mul_nonneg hr2nn hwnn]
    · nlinarith [mul_nonneg hr1nn hhnn]
  have hmd : (m : ℤ) * |((w * k / m : Nat) * h - (h * k / m : Nat) * w : ℤ)| <
      (m : ℤ) * m := by
    have h2 : |(m : ℤ) * ((w * k / m : Nat) * h - (h * k / m : Nat) * w)| =
        (m : ℤ) * |((w * k / m : Nat) * h - (h * k / m : Nat) * w : ℤ)| := by
      rw [abs_mul, abs_of_pos hm']
    rw [← h2, key]
    exact habs
  have hlt : |((w * k / m : Nat) * h - (h * k / m : Nat) * w : ℤ)| < (m : ℤ) :=
    lt_of_mul_lt_mul_left hmd (le_of_lt hm')
  rw [Int.abs_eq_natAbs] at hlt
  exact_mod_cast hlt

/-- C7: `constrainMaxDimension` (the resize step of `_extract_text`)
returns the image unchanged when `max(width, height) ≤ maxSize`;
otherwise it floor-rescales both dimensions by `maxSize / max(width,
height)`.  It never increases either dimension, and the cross-ratio
`width' * height - height' * width` (zero would be an exactly preserved
aspect ratio) deviates by strictly less than `max(width, height)` — the
floor-rounding error. -/
theorem constrain_max_dim_spec (image : Img) (max_size : Nat) :
    (max image.width image.height ≤ max_size →
      constrain_max_dim image max_size = image) ∧
    (max_size < max image.width image.height →
      (constrain_max_dim image max_size).width =
        image.width * max_size / max image.width image.height ∧
      (constrain_max_dim image max_size).height =
        image.height * max_size / max image.width image.height) ∧
    (constrain_max_dim image max_size).width ≤ image.width ∧
    (constrain_max_dim image max_size).height ≤ image.height ∧
    (((constrain_max_dim image max_size).width * image.height -
        (constrain_max_dim image max_size).height * image.width : ℤ)).natAbs
      < max 1 (max image.width image.height) := by
  by_cases hc : max_size < max image.width image.height
  · have hm : 0 < max image.width image.height :=
      Nat.lt_of_le_of_lt (Nat.zero_le _) hc
    have hr : constrain_max_dim image max_size =
        image.resize (image.width * max_size / max image.width image.height)
          (image.height * max_size / max image.width image.height) := by
      simp [constrain_max_dim, hc]
    refine ⟨fun hle => absurd hc (not_lt.mpr hle),
      fun _ => ⟨by rw [hr]; rfl, by rw [hr]; rfl⟩, ?_, ?_, ?_⟩
    · rw [hr]
      exact shrink_le image.width max_size _ hc.le hm
    · rw [hr]
      exact shrink_le image.height max_size _ hc.le hm
    · rw [hr]
      calc (((image.resize
              (image.width * max_size / max image.width image.height)
              (image.height * max_size / max image.width image.height)).width *
            image.height -
            (image.resize
              (image.width * max_size / max image.width image.height)
              (image.height * max_size / max image.width image.height)).height *
            image.width : ℤ)).natAbs
          < max image.width image.height :=
            aspect_bound image.width image.height max_size
              (max image.width image.height) hm (le_max_left _ _)
              (le_max_right _ _)
      _ ≤ max 1 (max image.width image.height) := le_max_right _ _
  · have hr : constrain_max_dim image max_size = image := by
      simp [constrain_max_dim, hc]
    refine ⟨fun _ => hr, fun hlt => absurd hlt hc, by rw [hr], by rw [hr], ?_⟩
    rw [hr, mul_comm (image.width : ℤ) (image.height : ℤ), sub_self]
    exact Nat.lt_of_lt_of_le Nat.zero_lt_one (le_max_left _ _)

/-- Witness for C7 at the 2048×1024 image `imgC` with bound 1024: the
result is 1024×512, not exceeding the original dimensions. -/
theorem constrain_max_dim_spec_witness :
    1024 < max imgC.width imgC.height ∧
    (constrain_max_dim imgC 1024).width = 1024 ∧
    (constrain_max_dim imgC 1024).height = 512 ∧
    (constrain_max_dim imgC 1024).width ≤ imgC.width ∧
    (constrain_max_dim imgC 1024).height ≤ imgC.height := by
  have h := constrain_max_dim_spec imgC 1024
  have h2 := h.2.1 (by decide)
  exact ⟨by decide, h2.1.trans (by decide), h2.2.trans (by decide),
    h.2.2.1, h.2.2.2.1⟩

/-- C5: for the `main.py` orchestrator, `count` always equals the length
of the `price_tags` list, and an empty detection list yields
`count = 0` with an empty record list.  No error case exists:
`detect_and_extract_main` is a total function. -/
theorem count_eq_length_and_empty (names : Nat → Option String)
    (ocr : Img → Except String String) (image : Img) (dets : List Det) :
    (detect_and_extract_main names ocr image dets).count =
      (detect_and_extract_main names ocr image dets).price_tags.length ∧
    detect_and_extract_main names ocr image [] = ⟨0, []⟩ :=
  ⟨rfl, rfl⟩

/-- Unfolding of the `main.py` per-detection body: skip on a degenerate
clamped box, otherwise emit the record with the raw box and no error. -/
theorem process_det_main_eq (names : Nat → Option String)
    (ocr : Img → Except String String) (image : Img) (d : Det) :
    process_det_main names ocr image d =
      if min (image.width : Int) d.x2 ≤ max 0 d.x1 ∨
          min (image.height : Int) d.y2 ≤ max 0 d.y1 then none
      else
        some ⟨[d.x1, d.y1, d.x2, d.y2],
          extract_text ocr (pad_to_square
            (image.crop (max 0 d.x1).toNat (max 0 d.y1).toNat
              (min (image.width : Int) d.x2).toNat
              (min (image.height : Int) d.y2).toNat) ⟨255, 255, 255⟩),
          round3 d.conf, (names d.cls).getD "price_tag", none⟩ := rfl

/-- Unfolding of the `price-project/modal_app.py` per-detection body:
like `main.py` but the detection is dropped when the unguarded OCR call
fails. -/
theorem process_det_modal_eq (names : Nat → Option String)
    (ocr : Img → Except String String) (image : Img) (d : Det) :
    process_det_modal names ocr image d =
      if min (image.width : Int) d.x2 ≤ max 0 d.x1 ∨
          min (image.height : Int) d.y2 ≤ max 0 d.y1 then none
      else
        match nanonets_extract_text ocr (pad_to_square
            (image.crop (max 0 d.x1).toNat (max 0 d.y1).toNat
              (min (image.width : Int) d.x2).toNat
              (min (image.height : Int) d.y2).toNat) ⟨255, 255, 255⟩) with
        | .ok text =>
          some ⟨[d.x1, d.y1, d.x2, d.y2], text, round3 d.conf,
            (names d.cls).getD "price_tag", none⟩
        | .error _ => none := rfl

/-- C4 counterexample: for a detection whose raw box `(-5, -5, 10, 10)`
sticks out of the 20×20 image, the emitted record stores the RAW box,
not the clamped box `(0, 0, 10, 10)` that was used for cropping. -/
theorem record_bbox_not_clamped_cex :
    (detect_and_extract_main names0 ocrOk imgB [dRawNeg]).price_tags.map
        PriceTagRecord.bbox = [[-5, -5, 10, 10]] ∧
    clampBox imgB dRawNeg = (0, 0, 10, 10) ∧
    ¬ ([(-5 : Int), -5, 10, 10] = [(0 : Int), 0, 10, 10]) :=
  ⟨rfl, by decide, by decide⟩

/-- C4 amended: for every detection that yields a record (in either
price-project implementation), the stored bounding box is the raw
integer detector box, while the clamped box only determines the crop. -/
theorem record_bbox_is_raw (names : Nat → Option String)
    (ocr : Img → Except String String) (image : Img) (d : Det)
    (r : PriceTagRecord) :
    (process_det_main names ocr image d = some r →
      r.bbox = [d.x1, d.y1, d.x2, d.y2]) ∧
    (process_det_modal names ocr image d = some r →
      r.bbox = [d.x1, d.y1, d.x2, d.y2]) := by
  constructor
  · intro h
    rw [process_det_main_eq] at h
    split at h
    · exact Option.noConfusion h
    · cases Option.some.inj h
      rfl
  · intro h
    rw [process_det_modal_eq] at h
    split at h
    · exact Option.noConfusion h
    · split at h
      · cases Option.some.inj h
        rfl
      · exact Option.noConfusion h

/-- Witness for C4 at `dRawNeg` on `imgB`: the record produced by the
`main.py` loop carries the raw box. -/
theorem record_bbox_is_raw_witness :
    (⟨[-5, -5, 10, 10], "PRICE", round3 1, "price_tag", none⟩ :
      PriceTagRecord).bbox = [dRawNeg.x1, dRawNeg.y1, dRawNeg.x2, dRawNeg.y2] ∧
    (⟨[-5, -5, 10, 10], "PRICE", round3 1, "price_tag", none⟩ :
      PriceTagRecord).bbox = [-5, -5, 10, 10] := by
  have h := (record_bbox_is_raw names0 ocrOk imgB dRawNeg
    ⟨[-5, -5, 10, 10], "PRICE", round3 1, "price_tag", none⟩).1 rfl
  exact ⟨h, h.trans (by decide)⟩

/-- A list member mapped to `none` makes the filterMap strictly shorter. -/
theorem length_filterMap_lt_of_mem_none {α β : Type} (f : α → Option β)
    (l : List α) (a : α) (ha : a ∈ l) (hf : f a = none) :
    (l.filterMap f).length < l.length := by
  induction l with
  | nil => cases ha
  | cons x xs ih =>
    rw [List.filterMap_cons]
    rcases List.mem_cons.mp ha with rfl | hmem
    · rw [hf]
      exact Nat.lt_succ_of_le (List.length_filterMap_le f xs)
    · cases hfx : f x with
      | none => exact Nat.lt_succ_of_lt (ih hmem)
      | some b =>
        simp only [List.length_cons]
        exact Nat.succ_lt_succ (ih hmem)

/-- A degenerate clamped box is skipped by the `main.py` loop body. -/
theorem process_det_main_none (names : Nat → Option String)
    (ocr : Img → Except String String) (image : Img) (d : Det)
    (hdeg : min (image.width : Int) d.x2 ≤ max 0 d.x1 ∨
      min (image.height : Int) d.y2 ≤ max 0 d.y1) :
    process_det_main names ocr image d = none := by
  rw [process_det_main_eq, if_pos hdeg]

/-- A degenerate clamped box is skipped by the modal loop body. -/
theorem process_det_modal_none (names : Nat → Option String)
    (ocr : Img → Except String String) (image : Img) (d : Det)
    (hdeg : min (image.width : Int) d.x2 ≤ max 0 d.x1 ∨
      min (image.height : Int) d.y2 ≤ max 0 d.y1) :
    process_det_modal names ocr image d = none := by
  rw [process_det_modal_eq, if_pos hdeg]

/-- C3 (amended): in both price-project implementations a detection
whose clamped box is degenerate (`x2 ≤ x1` or `y2 ≤ y1` after clamping)
contributes no record, and its presence makes the record list strictly
shorter than the raw detection count.  No failure arises from the skip:
both orchestrators are total functions.  (The jupyter implementation
does not clamp; see the counterexample.) -/
theorem degenerate_clamped_box_skipped (names : Nat → Option String)
    (ocr : Img → Except String String) (image : Img) (d : Det)
    (dets : List Det) (hd : d ∈ dets)
    (hdeg : min (image.width : Int) d.x2 ≤ max 0 d.x1 ∨
      min (image.height : Int) d.y2 ≤ max 0 d.y1) :
    process_det_main names ocr image d = none ∧
    process_det_modal names ocr image d = none ∧
    (detect_and_extract_main names ocr image dets).price_tags.length
      < dets.length ∧
    (detect_and_extract_modal names ocr image dets).price_tags.length
      < dets.length := by
  refine ⟨process_det_main_none names ocr image d hdeg,
    process_det_modal_none names ocr image d hdeg, ?_, ?_⟩
  · have hdeg' :
        min (((if image.mode = "RGB" then image else image.convert
          "RGB").width : Int)) d.x2 ≤ max 0 d.x1 ∨
        min (((if image.mode = "RGB" then image else image.convert
          "RGB").height : Int)) d.y2 ≤ max 0 d.y1 := by
      split
      · exact hdeg
      · exact hdeg
    exact length_filterMap_lt_of_mem_none _ dets d hd
      (process_det_main_none names ocr _ d hdeg')
  · exact length_filterMap_lt_of_mem_none _ dets d hd
      (process_det_modal_none names ocr image d hdeg)

/-- Witness for C3 at the zero-width detection `dDeg` on `imgB`. -/
theorem degenerate_clamped_box_skipped_witness :
    process_det_main names0 ocrOk imgB dDeg = none ∧
    (detect_and_extract_main names0 ocrOk imgB [dDeg]).price_tags.length
      < 1 := by
  have h := degenerate_clamped_box_skipped names0 ocrOk imgB dDeg [dDeg]
    (by decide) (by decide)
  exact ⟨h.1, h.2.2.1⟩

/-- C3 counterexample: the jupyter `_detect_and_extract` performs no
clamping and no degeneracy skip — the zero-width detection `dDeg`
(degenerate after clamping, as the first conjunct states) still yields a
record, so with one raw detection the record list has length 1, NOT
strictly less than the raw detection count. -/
theorem degenerate_box_not_skipped_jup_cex :
    (min (imgB.width : Int) dDeg.x2 ≤ max 0 dDeg.x1) ∧
    detect_and_extract_jup names0 ocrOk imgB [dDeg] =
      .ok ⟨1, [⟨[0, 0, 0, 5], "PRICE", 1, "price_tag", none⟩]⟩ ∧
    ¬ ((1 : Nat) < 1) :=
  ⟨by decide, rfl, by decide⟩

/-- In the jupyter loop, boxes succeeding around one fixed box compose:
the traversal of `pre ++ d :: post` succeeds with `d`'s record spliced in
between the sibling records. -/
theorem jup_tags_append (names : Nat → Option String)
    (ocr : Img → Except String String) (image : Img) (pre post : List Det)
    (d : Det) (lpre lpost : List PriceTagRecord) (r : PriceTagRecord)
    (hpre : jup_tags names ocr image pre = .ok lpre)
    (hd : process_det_jup names ocr image d = .ok r)
    (hpost : jup_tags names ocr image post = .ok lpost) :
    jup_tags names ocr image (pre ++ d :: post) = .ok (lpre ++ r :: lpost) := by
  induction pre generalizing lpre with
  | nil =>
    cases hpre
    simp only [List.nil_append]
    rw [jup_tags, hd, hpost]
  | cons x xs ih =>
    rw [jup_tags] at hpre
    rw [List.cons_append, jup_tags]
    cases hx : process_det_jup names ocr image x with
    | error e =>
      rw [hx] at hpre
      exact Except.noConfusion hpre
    | ok rx =>
      rw [hx] at hpre
      cases hxs : jup_tags names ocr image xs with
      | error e =>
        rw [hxs] at hpre
        exact Except.noConfusion hpre
      | ok rs =>
        rw [hxs] at hpre
        cases hpre
        rw [ih rs hxs]
        rfl

/-- C1 (amended): when text extraction fails for a detection, a record
for it is still emitted with empty text and is included in `count`, and
the failure never aborts the sibling detections or the image — but the
error detail field is populated only by the jupyter implementation; the
`main.py` implementation (whose `_extract_text` swallows the failure)
emits the record with NO error field.  Stated for a detection `d`
between arbitrary sibling lists `pre`/`post`: the OCR oracle fails on
`d`'s processed crop, and the output splices `d`'s degraded record
between the siblings' records. -/
theorem extraction_failure_degraded_record (names : Nat → Option String)
    (ocr : Img → Except String String) (image : Img) (d : Det)
    (pre post : List Det) (lpre lpost : List PriceTagRecord) (ci ti : Img)
    (e cls : String)
    (hnd : ¬ (min (image.width : Int) d.x2 ≤ max 0 d.x1 ∨
      min (image.height : Int) d.y2 ≤ max 0 d.y1))
    (hmode : image.mode = "RGB")
    (hocr : ocr (constrain_max_dim (pad_to_square
        (image.crop (max 0 d.x1).toNat (max 0 d.y1).toNat
          (min (image.width : Int) d.x2).toNat
          (min (image.height : Int) d.y2).toNat) ⟨255, 255, 255⟩) 1024) =
      .error e)
    (hcrop : image.cropI d.x1 d.y1 d.x2 d.y2 = .ok ci)
    (hcls : names d.cls = some cls)
    (hthumb : (pad_to_square_jupyter ci ⟨255, 255, 255⟩).thumbnail 1024 1024 =
      .ok ti)
    (hocrj : ocr ti = .error e)
    (hpre : jup_tags names ocr image pre = .ok lpre)
    (hpost : jup_tags names ocr image post = .ok lpost) :
    process_det_main names ocr image d =
      some ⟨[d.x1, d.y1, d.x2, d.y2], "", round3 d.conf,
        (names d.cls).getD "price_tag", none⟩ ∧
    (detect_and_extract_main names ocr image (pre ++ d :: post)).price_tags =
      pre.filterMap (process_det_main names ocr image) ++
        ⟨[d.x1, d.y1, d.x2, d.y2], "", round3 d.conf,
          (names d.cls).getD "price_tag", none⟩ ::
        post.filterMap (process_det_main names ocr image) ∧
    (detect_and_extract_main names ocr image (pre ++ d :: post)).count =
      (detect_and_extract_main names ocr image
        (pre ++ d :: post)).price_tags.length ∧
    process_det_jup names ocr image d =
      .ok ⟨[d.x1, d.y1, d.x2, d.y2], "", d.conf, cls, some e⟩ ∧
    detect_and_extract_jup names ocr image (pre ++ d :: post) =
      .ok ⟨(lpre ++ ⟨[d.x1, d.y1, d.x2, d.y2], "", d.conf, cls, some e⟩ ::
          lpost).length,
        lpre ++ ⟨[d.x1, d.y1, d.x2, d.y2], "", d.conf, cls, some e⟩ ::
          lpost⟩ := by
  have htext : extract_text ocr (pad_to_square
      (image.crop (max 0 d.x1).toNat (max 0 d.y1).toNat
        (min (image.width : Int) d.x2).toNat
        (min (image.height : Int) d.y2).toNat) ⟨255, 255, 255⟩) = "" := by
    simp only [extract_text]
    rw [hocr]
  have hmainrec : process_det_main names ocr image d =
      some ⟨[d.x1, d.y1, d.x2, d.y2], "", round3 d.conf,
        (names d.cls).getD "price_tag", none⟩ := by
    rw [process_det_main_eq, if_neg hnd, htext]
  have hjrec : process_det_jup names ocr image d =
      .ok ⟨[d.x1, d.y1, d.x2, d.y2], "", d.conf, cls, some e⟩ := by
    simp only [process_det_jup, hcrop, hcls, hthumb, hocrj, Except.map]
  have hjl := jup_tags_append names ocr image pre post d lpre lpost _
    hpre hjrec hpost
  refine ⟨hmainrec, ?_, rfl, hjrec, ?_⟩
  · simp only [detect_and_extract_main, if_pos hmode]
    rw [List.filterMap_append, List.filterMap_cons, hmainrec]
  · simp only [detect_and_extract_jup]
    rw [hjl]

/-- Witness for C1 at `dGood` on `imgB` with an always-failing OCR
oracle: `main.py` emits the degraded record without an error field, the
jupyter loop emits it with the error message attached. -/
theorem extraction_failure_degraded_record_witness :
    process_det_main names0 ocrFail imgB dGood =
      some ⟨[0, 0, 10, 10], "", round3 1, "price_tag", none⟩ ∧
    process_det_jup names0 ocrFail imgB dGood =
      .ok ⟨[0, 0, 10, 10], "", 1, "price_tag", some "OCR boom"⟩ := by
  have h := extraction_failure_degraded_record names0 ocrFail imgB dGood
    [] [] [] [] ciW tiW "OCR boom" "price_tag" (by decide) rfl rfl rfl rfl
    rfl rfl rfl rfl
  exact ⟨h.1, h.2.2.2.1⟩

/-- C1 counterexample: in `main.py`, with an OCR oracle that always
fails, the record emitted for `dGood` has empty text but NO error field
(`error = none`) — `_extract_text` swallows the failure — contradicting
the claimed populated error detail field. -/
theorem extraction_failure_no_error_field_cex :
    (detect_and_extract_main names0 ocrFail imgB [dGood]).price_tags =
      [⟨[0, 0, 10, 10], "", round3 1, "price_tag", none⟩] ∧
    (detect_and_extract_main names0 ocrFail imgB [dGood]).count = 1 ∧
    ocrFail (constrain_max_dim (pad_to_square (imgB.crop 0 0 10 10)
      ⟨255, 255, 255⟩) 1024) = .error "OCR boom" ∧
    (⟨[0, 0, 10, 10], "", round3 1, "price_tag", none⟩ :
      PriceTagRecord).error = none :=
  ⟨rfl, rfl, rfl, rfl⟩

/-- Reading back the key just assigned in the job-statuses dict. -/
theorem storeGet_storeSet (s : JobStore) (k : String) (v : JobEntry) :
    storeGet (storeSet s k v) k = some v := by
  induction s with
  | nil => simp [storeSet, storeGet]
  | cons p s ih =>
    obtain ⟨k', v'⟩ := p
    by_cases h : k' = k
    · simp [storeSet, storeGet, h]
    · simp [storeSet, storeGet, h, ih]

/-- C2: starting from a job in `submitted` state, one invocation of
`process_url_job` (resp. `process_file_job`) always ends with that job in
a terminal state: `completed` carrying the `ExtractionResult` when the
whole pipeline succeeds, `failed` carrying the error message on any
failure (fetch, decode, or orchestration), and never `submitted`.  The
catch-all `try/except Exception` around the body is modelled by the match
on the pipeline outcome; process-level deaths (container timeout,
`SystemExit`) are outside the shallow embedding. -/
theorem run_job_terminal (job_statuses : JobStore) (job_id : String)
    (fetch : Except String (List Nat)) (decode : List Nat → Except String Img)
    (detect : Img → Except String (List Det)) (names : Nat → Option String)
    (ocr : Img → Except String String) (file_data : List Nat)
    (hsub : storeGet job_statuses job_id = some submittedEntry) :
    ((∃ r, run_url_pipeline fetch decode detect names ocr = .ok r ∧
        storeGet (process_url_job job_statuses job_id fetch decode detect
          names ocr) job_id = some ⟨"completed", some r, none⟩) ∨
      (∃ e, run_url_pipeline fetch decode detect names ocr = .error e ∧
        storeGet (process_url_job job_statuses job_id fetch decode detect
          names ocr) job_id = some ⟨"failed", none, some e⟩)) ∧
    (∀ entry, storeGet (process_url_job job_statuses job_id fetch decode
        detect names ocr) job_id = some entry → entry.status ≠ "submitted") ∧
    ((∃ r, run_file_pipeline file_data decode detect names ocr = .ok r ∧
        storeGet (process_file_job job_statuses job_id file_data decode
          detect names ocr) job_id = some ⟨"completed", some r, none⟩) ∨
      (∃ e, run_file_pipeline file_data decode detect names ocr = .error e ∧
        storeGet (process_file_job job_statuses job_id file_data decode
          detect names ocr) job_id = some ⟨"failed", none, some e⟩)) ∧
    (∀ entry, storeGet (process_file_job job_statuses job_id file_data
        decode detect names ocr) job_id = some entry →
      entry.status ≠ "submitted") := by
  refine ⟨?_, ?_, ?_, ?_⟩
  · cases hp : run_url_pipeline fetch decode detect names ocr with
    | ok r =>
      refine Or.inl ⟨r, rfl, ?_⟩
      simp only [process_url_job, hp]
      exact storeGet_storeSet job_statuses job_id _
    | error e =>
      refine Or.inr ⟨e, rfl, ?_⟩
      simp only [process_url_job, hp]
      exact storeGet_storeSet job_statuses job_id _
  · intro entry hentry
    cases hp : run_url_pipeline fetch decode detect names ocr with
    | ok r =>
      simp only [process_url_job, hp] at hentry
      rw [storeGet_storeSet] at hentry
      cases Option.some.inj hentry
      show ("completed" : String) ≠ "submitted"
      decide
    | error e =>
      simp only [process_url_job, hp] at hentry
      rw [storeGet_storeSet] at hentry
      cases Option.some.inj hentry
      show ("failed" : String) ≠ "submitted"
      decide
  · cases hp : run_file_pipeline file_data decode detect names ocr with
    | ok r =>
      refine Or.inl ⟨r, rfl, ?_⟩
      simp only [process_file_job, hp]
      exact storeGet_storeSet job_statuses job_id _
    | error e =>
      refine Or.inr ⟨e, rfl, ?_⟩
      simp only [process_file_job, hp]
      exact storeGet_storeSet job_statuses job_id _
  · intro entry hentry
    cases hp : run_file_pipeline file_data decode detect names ocr with
    | ok r =>
      simp only [process_file_job, hp] at hentry
      rw [storeGet_storeSet] at hentry
      cases Option.some.inj hentry
      show ("completed" : String) ≠ "submitted"
      decide
    | error e =>
      simp only [process_file_job, hp] at hentry
      rw [storeGet_storeSet] at hentry
      cases Option.some.inj hentry
      show ("failed" : String) ≠ "submitted"
      decide

/-- Witness for C2: a job submitted to an unreachable URL ends `failed`
with the fetch error, never `submitted`. -/
theorem run_job_terminal_witness :
    storeGet (process_url_job [("j1", submittedEntry)] "j1"
      (Except.error "connection refused") (fun _ => Except.error "bad image")
      (fun _ => Except.ok []) names0 ocrOk) "j1" =
      some ⟨"failed", none, some "connection refused"⟩ := by
  have h := run_job_terminal [("j1", submittedEntry)] "j1"
    (Except.error "connection refused") (fun _ => Except.error "bad image")
    (fun _ => Except.ok []) names0 ocrOk [] rfl
  have h2 : run_url_pipeline (Except.error "connection refused")
      (fun _ => Except.error "bad image") (fun _ => Except.ok [])
      names0 ocrOk = .error "connection refused" := rfl
  rcases h.1 with ⟨r, hok, _⟩ | ⟨e, herr, hget⟩
  · exact Except.noConfusion (h2.symm.trans hok)
  · rw [h2] at herr
    cases Except.error.inj herr
    exact hget

/-- C9 counterexample: submitting with a job id already present in the
store succeeds (no `DuplicateJob` failure) and silently overwrites the
existing completed entry with a fresh `submitted` entry. -/
theorem submit_job_url_overwrites_cex :
    submit_job_url [("job_x", completedEntry0)] "job_x" (some "http://img") =
      .ok ([("job_x", submittedEntry)], "job_x") ∧
    storeGet [("job_x", submittedEntry)] "job_x" = some submittedEntry ∧
    submittedEntry ≠ completedEntry0 :=
  ⟨rfl, rfl, by decide⟩

/-- C9 (amended): the submission path sets the job's entry to
`status = "submitted"`, `result = None` — unconditionally, overwriting
any existing entry under the same id; there is no `DuplicateJob`
failure in the code (a plain dict assignment). -/
theorem submit_job_url_create (job_statuses : JobStore) (job_id u : String) :
    submit_job_url job_statuses job_id (some u) =
      .ok (storeSet job_statuses job_id submittedEntry, job_id) ∧
    storeGet (storeSet job_statuses job_id submittedEntry) job_id =
      some submittedEntry :=
  ⟨rfl, storeGet_storeSet job_statuses job_id submittedEntry⟩
